import Mathlib

/-!
# The native library load hook of react-native-nitro-splash-screen

Embedding of `android/src/main/cpp/cpp-adapter.cpp`:

```
JNIEXPORT jint JNICALL JNI_OnLoad(JavaVM *vm, void *)
{
  return facebook::jni::initialize(vm, [=]
                                   { margelo::nitro::splashscreen::initialize(vm); });
}
```

The two initializers called by the hook are declared in headers that are not
part of the sources (`fbjni/fbjni.h`, `NitroSplashScreenOnLoad.hpp`); they are
parameters of the embedding.  A call runs on an explicit world state and ends
either normally with a value or with a thrown exception; in both cases the
state changes made so far remain.
-/

namespace NitroSplashScreen

/-- The virtual-machine handle `JavaVM *`, a pointer value. -/
structure JavaVM where
  addr : Nat
  deriving DecidableEq, Repr

/-- The unnamed second parameter of the hook, of type `void *`. -/
structure VoidPtr where
  addr : Nat
  deriving DecidableEq, Repr

/-- The JNI integer type; the hook only forwards values of it. -/
abbrev jint := Int

/-- The version constant `JNI_VERSION_1_6` of `jni.h`, used in examples. -/
def JNI_VERSION_1_6 : jint := 0x00010006

/-- An effectful C++ call on world states `σ`: from the state before the call
to its outcome (a value, or the exception `ε` it throws) and the state after. -/
abbrev Eff (σ ε α : Type) := σ → Except ε α × σ

/-- The lambda `[=] { margelo::nitro::splashscreen::initialize(vm); }`: it holds
a copy of `vm`, calls the module initializer with it, drops the value of the
expression statement and returns `void`; an exception passes through. -/
def onLoadCallback {σ ε ρ : Type} (splashscreenInit : JavaVM → Eff σ ε ρ)
    (vm : JavaVM) : Eff σ ε Unit :=
  fun s =>
    match splashscreenInit vm s with
    | (Except.ok _, s1) => (Except.ok (), s1)
    | (Except.error e, s1) => (Except.error e, s1)

/-- The hook `JNI_OnLoad(JavaVM *vm, void *)`.  `jniInit` stands for
`facebook::jni::initialize` and `splashscreenInit` for
`margelo::nitro::splashscreen::initialize`. -/
def JNI_OnLoad {σ ε ρ : Type}
    (jniInit : JavaVM → Eff σ ε Unit → Eff σ ε jint)
    (splashscreenInit : JavaVM → Eff σ ε ρ)
    (vm : JavaVM) (_reserved : VoidPtr) : Eff σ ε jint :=
  jniInit vm (onLoadCallback splashscreenInit vm)

/-!
## Observing calls

To count calls, the behaviour of an initializer that receives a callback is
given as a tree: it returns a status, throws, changes the world, looks at the
world, or invokes the callback and goes on according to how the callback
ended.  Every such tree is a behaviour the hook has to cope with.
-/

/-- Behaviour of a framework initializer on world states `σ`. -/
inductive Framework (σ ε : Type) where
  | ret (status : jint) : Framework σ ε
  | raise (e : ε) : Framework σ ε
  | update (f : σ → σ) (next : Framework σ ε) : Framework σ ε
  | inspect (next : σ → Framework σ ε) : Framework σ ε
  | invoke (onReturn : Framework σ ε) (onThrow : ε → Framework σ ε) : Framework σ ε

namespace Framework

variable {σ ε τ : Type}

/-- Run a behaviour with the callback it was handed. -/
def run : Framework σ ε → Eff σ ε Unit → Eff σ ε jint
  | ret c, _, s => (Except.ok c, s)
  | raise e, _, s => (Except.error e, s)
  | update f k, cb, s => run k cb (f s)
  | inspect k, cb, s => run (k s) cb s
  | invoke k h, cb, s =>
    match cb s with
    | (Except.ok _, s1) => run k cb s1
    | (Except.error e, s1) => run (h e) cb s1

/-- Number of times the behaviour invokes its callback in the run from `s`. -/
def invocations : Framework σ ε → Eff σ ε Unit → σ → Nat
  | ret _, _, _ => 0
  | raise _, _, _ => 0
  | update f k, cb, s => invocations k cb (f s)
  | inspect k, cb, s => invocations (k s) cb s
  | invoke k h, cb, s =>
    match cb s with
    | (Except.ok _, s1) => invocations k cb s1 + 1
    | (Except.error e, s1) => invocations (h e) cb s1 + 1

/-- The same behaviour in a world that carries an extra component `τ`, which
the behaviour neither reads nor writes. -/
def lift : Framework σ ε → Framework (σ × τ) ε
  | ret c => ret c
  | raise e => raise e
  | update f k => update (fun w => (f w.1, w.2)) (lift k)
  | inspect k => inspect (fun w => lift (k w.1))
  | invoke k h => invoke (lift k) (fun e => lift (h e))

/-- End of a behaviour without a further callback invocation: `f` gives the
outcome and the world the behaviour ends with. -/
def finish (f : σ → Except ε jint × σ) : Framework σ ε :=
  inspect (fun s => update (fun _ => (f s).2)
    (match (f s).1 with
      | Except.ok c => ret c
      | Except.error e => raise e))

end Framework

/-- Modelled from the spec: the framework initializer
`facebook::jni::initialize`, whose code is not part of the sources.  In the
words of the spec the hook must "initialize the binding/reflection framework
with that handle, supplying it a callback", the module is initialized "inside
that callback", and the hook returns "whatever the framework initializer
reports as its status code".  So the framework does its own set-up with the
handle (`setUp`), runs the callback it is handed, once, and ends according to
how the callback ended: `afterReturn` when it returned, `afterThrow` when it
threw; each gives the status reported or the failure raised, and the world.
The spec leaves the three unknown; they are parameters. -/
def callbackRunningFramework {σ ε : Type} (setUp : JavaVM → σ → σ)
    (afterReturn : JavaVM → σ → Except ε jint × σ)
    (afterThrow : JavaVM → ε → σ → Except ε jint × σ) : JavaVM → Framework σ ε :=
  fun vm => Framework.update (setUp vm)
    (Framework.invoke (Framework.finish (afterReturn vm))
      (fun e => Framework.finish (afterThrow vm e)))

/-- What the call log records. -/
inductive Event where
  | frameworkBegin (vm : JavaVM) : Event
  | moduleCall (vm : JavaVM) : Event
  | frameworkEnd : Event
  deriving DecidableEq, Repr

/-- The framework initializer with behaviour `fw`, logging when a call to it
begins (with the handle it received) and when it ends. -/
def tracedFramework {σ ε : Type} (fw : JavaVM → Framework σ ε) :
    JavaVM → Eff (σ × List Event) ε Unit → Eff (σ × List Event) ε jint :=
  fun vm cb w =>
    match (fw vm).lift.run cb (w.1, w.2 ++ [Event.frameworkBegin vm]) with
    | (r, w1) => (r, (w1.1, w1.2 ++ [Event.frameworkEnd]))

/-- The module initializer `md`, logging each call with the handle received. -/
def tracedModule {σ ε ρ : Type} (md : JavaVM → Eff σ ε ρ) :
    JavaVM → Eff (σ × List Event) ε ρ :=
  fun vm w =>
    match md vm w.1 with
    | (r, s1) => (r, (s1, w.2 ++ [Event.moduleCall vm]))

/-- One run of the hook from world `s` with an empty log. -/
def tracedOnLoad {σ ε ρ : Type} (fw : JavaVM → Framework σ ε)
    (md : JavaVM → Eff σ ε ρ) (vm : JavaVM) (reserved : VoidPtr) (s : σ) :
    Except ε jint × σ × List Event :=
  JNI_OnLoad (tracedFramework fw) (tracedModule md) vm reserved (s, [])

/-- The calls to the module initializer in a log. -/
def moduleCalls (log : List Event) : List Event :=
  log.filter (fun ev => match ev with
    | Event.moduleCall _ => true
    | _ => false)

/-- The calls to the framework initializer in a log. -/
def frameworkCalls (log : List Event) : List Event :=
  log.filter (fun ev => match ev with
    | Event.frameworkBegin _ => true
    | _ => false)

/-! ## Sample collaborators for concrete runs -/

/-- A framework that reports failure of its own set-up (world component 0 is
then nonzero) by skipping the callback, and swallows what the callback throws;
it returns the JNI version in every case. -/
def guardedFramework : JavaVM → Framework (Nat × Nat) String :=
  fun _ => Framework.inspect (fun s =>
    if s.1 = 0 then
      Framework.invoke (Framework.ret JNI_VERSION_1_6) (fun _ => Framework.ret JNI_VERSION_1_6)
    else Framework.ret JNI_VERSION_1_6)

/-- A framework that never invokes its callback. -/
def silentFramework : JavaVM → Framework (Nat × Nat) String :=
  fun _ => Framework.ret JNI_VERSION_1_6

/-- A framework that invokes its callback twice and rethrows. -/
def eagerFramework : JavaVM → Framework (Nat × Nat) String :=
  fun _ => Framework.invoke
    (Framework.invoke (Framework.ret JNI_VERSION_1_6) Framework.raise) Framework.raise

/-- A module initializer that counts its calls in world component 1. -/
def countingModule : JavaVM → Eff (Nat × Nat) String Int :=
  fun _ s => (Except.ok 0, (s.1, s.2 + 1))

/-- A module initializer that throws. -/
def failingModule : JavaVM → Eff (Nat × Nat) String Int :=
  fun _ s => (Except.error "registration failed", s)

/-! ## The log of a run -/

/-- The hook's callback over the logging module initializer does what the
callback over the plain one does, and adds one entry to the log. -/
theorem onLoadCallback_traced {σ ε ρ : Type} (md : JavaVM → Eff σ ε ρ) (vm : JavaVM)
    (s : σ) (log : List Event) :
    onLoadCallback (tracedModule md) vm (s, log)
      = ((onLoadCallback md vm s).1,
         ((onLoadCallback md vm s).2, log ++ [Event.moduleCall vm])) := by
  unfold onLoadCallback tracedModule
  rcases h : md vm s with ⟨r, s1⟩
  cases r <;> simp [h]

/-- A lifted behaviour, run with a callback that adds `ev` to the log on each
invocation, ends as the plain run does and adds `ev` once per invocation. -/
theorem Framework.run_lift_log {σ ε : Type} (cb : Eff σ ε Unit)
    (cbT : Eff (σ × List Event) ε Unit) (ev : Event)
    (hcb : ∀ s log, cbT (s, log) = ((cb s).1, ((cb s).2, log ++ [ev])))
    (t : Framework σ ε) (s : σ) (log : List Event) :
    t.lift.run cbT (s, log)
      = ((t.run cb s).1,
         ((t.run cb s).2, log ++ List.replicate (t.invocations cb s) ev)) := by
  induction t generalizing s log with
  | ret c => simp [Framework.lift, Framework.run, Framework.invocations]
  | raise e => simp [Framework.lift, Framework.run, Framework.invocations]
  | update f k ih =>
    simp only [Framework.lift, Framework.run, Framework.invocations]
    exact ih (f s) log
  | inspect k ih =>
    simp only [Framework.lift, Framework.run, Framework.invocations]
    exact ih s s log
  | invoke k h ihk ihh =>
    simp only [Framework.lift, Framework.run, Framework.invocations, hcb]
    rcases hc : cb s with ⟨r, s1⟩
    cases r with
    | ok u =>
      simp only []
      rw [ihk s1 (log ++ [ev])]
      simp [List.replicate_succ]
    | error e =>
      simp only []
      rw [ihh e s1 (log ++ [ev])]
      simp [List.replicate_succ]

/-- The outcome, final world and log of a run of the hook. -/
theorem tracedOnLoad_eq {σ ε ρ : Type} (fw : JavaVM → Framework σ ε)
    (md : JavaVM → Eff σ ε ρ) (vm : JavaVM) (reserved : VoidPtr) (s : σ) :
    tracedOnLoad fw md vm reserved s
      = (((fw vm).run (onLoadCallback md vm) s).1,
         ((fw vm).run (onLoadCallback md vm) s).2,
         Event.frameworkBegin vm ::
           (List.replicate ((fw vm).invocations (onLoadCallback md vm) s) (Event.moduleCall vm)
             ++ [Event.frameworkEnd])) := by
  unfold tracedOnLoad JNI_OnLoad tracedFramework
  simp only []
  rw [Framework.run_lift_log (onLoadCallback md vm) (onLoadCallback (tracedModule md) vm)
    (Event.moduleCall vm) (onLoadCallback_traced md vm)]
  simp

/-- Module calls of the log of a run. -/
theorem moduleCalls_log (vm : JavaVM) (n : Nat) :
    moduleCalls (Event.frameworkBegin vm ::
      (List.replicate n (Event.moduleCall vm) ++ [Event.frameworkEnd]))
      = List.replicate n (Event.moduleCall vm) := by
  simp [moduleCalls, List.filter_cons, List.filter_append, List.filter_replicate]

/-- Framework calls of the log of a run. -/
theorem frameworkCalls_log (vm : JavaVM) (n : Nat) :
    frameworkCalls (Event.frameworkBegin vm ::
      (List.replicate n (Event.moduleCall vm) ++ [Event.frameworkEnd]))
      = [Event.frameworkBegin vm] := by
  simp [frameworkCalls, List.filter_cons, List.filter_append, List.filter_replicate]

/-- A run without callback invocation does not depend on the callback. -/
theorem Framework.run_of_invocations_eq_zero {σ ε : Type} (cb cb2 : Eff σ ε Unit)
    (t : Framework σ ε) (s : σ) (h : t.invocations cb s = 0) :
    t.run cb s = t.run cb2 s := by
  induction t generalizing s with
  | ret c => rfl
  | raise e => rfl
  | update f k ih =>
    simp only [Framework.run, Framework.invocations] at h ⊢
    exact ih (f s) h
  | inspect k ih =>
    simp only [Framework.run, Framework.invocations] at h ⊢
    exact ih s s h
  | invoke k hd ihk ihh =>
    simp only [Framework.invocations] at h
    rcases hc : cb s with ⟨r, s1⟩
    rw [hc] at h
    cases r <;> simp at h

/-- The end of a behaviour invokes no callback. -/
theorem Framework.finish_invocations {σ ε : Type} (f : σ → Except ε jint × σ)
    (cb : Eff σ ε Unit) (s : σ) : (Framework.finish f).invocations cb s = 0 := by
  simp only [Framework.finish, Framework.invocations]
  cases (f s).1 <;> rfl

/-- The framework of the spec invokes its callback once in every run. -/
theorem callbackRunningFramework_invocations {σ ε : Type} (setUp : JavaVM → σ → σ)
    (afterReturn : JavaVM → σ → Except ε jint × σ)
    (afterThrow : JavaVM → ε → σ → Except ε jint × σ)
    (vm : JavaVM) (cb : Eff σ ε Unit) (s : σ) :
    (callbackRunningFramework setUp afterReturn afterThrow vm).invocations cb s = 1 := by
  unfold callbackRunningFramework
  rw [Framework.invocations, Framework.invocations]
  rcases cb (setUp vm s) with ⟨r, s1⟩
  cases r with
  | ok u => exact congrArg (· + 1) (Framework.finish_invocations (afterReturn vm) cb s1)
  | error e => exact congrArg (· + 1) (Framework.finish_invocations (afterThrow vm e) cb s1)

/-- The log of a run in which the framework invokes its callback once. -/
theorem tracedOnLoad_log_of_one_invocation {σ ε ρ : Type} (fw : JavaVM → Framework σ ε)
    (md : JavaVM → Eff σ ε ρ) (vm : JavaVM) (reserved : VoidPtr) (s : σ)
    (h : (fw vm).invocations (onLoadCallback md vm) s = 1) :
    (tracedOnLoad fw md vm reserved s).2.2
      = [Event.frameworkBegin vm, Event.moduleCall vm, Event.frameworkEnd] := by
  rw [tracedOnLoad_eq]
  simp [h]

/-! ## The claims -/

/-- C1: the outcome of `JNI_OnLoad` is the outcome of the call of the framework
initializer with `vm` and the hook's callback, for every framework initializer,
module initializer, handle, context pointer and world; and in a logged run the
hook returns the status of the framework's run. -/
theorem JNI_OnLoad_returns_framework_status {σ ε ρ : Type}
    (jniInit : JavaVM → Eff σ ε Unit → Eff σ ε jint)
    (splashscreenInit : JavaVM → Eff σ ε ρ)
    (fw : JavaVM → Framework σ ε)
    (vm : JavaVM) (reserved : VoidPtr) (s : σ) :
    (JNI_OnLoad jniInit splashscreenInit vm reserved s).1
        = (jniInit vm (onLoadCallback splashscreenInit vm) s).1
      ∧ (tracedOnLoad fw splashscreenInit vm reserved s).1
        = ((fw vm).run (onLoadCallback splashscreenInit vm) s).1 := by
  refine ⟨rfl, ?_⟩
  rw [tracedOnLoad_eq]

/-- C2: with the framework initializer as the spec describes it (it runs the
callback it is handed, once), one run of the hook from any world, for every
handle `vm` (the valid ones among them), context pointer and module
initializer, logs exactly: the call of the framework initializer beginning
with `vm`, one call of the module initializer with the same `vm`, the call of
the framework initializer ending.  So there is exactly one framework call and
exactly one module call, nested in it.  The same holds for every framework
behaviour that invokes its callback once in the run. -/
theorem JNI_OnLoad_call_sequence {σ ε ρ : Type} (setUp : JavaVM → σ → σ)
    (afterReturn : JavaVM → σ → Except ε jint × σ)
    (afterThrow : JavaVM → ε → σ → Except ε jint × σ)
    (md : JavaVM → Eff σ ε ρ) (vm : JavaVM) (reserved : VoidPtr) (s : σ) :
    (tracedOnLoad (callbackRunningFramework setUp afterReturn afterThrow) md vm reserved s).2.2
        = [Event.frameworkBegin vm, Event.moduleCall vm, Event.frameworkEnd]
      ∧ frameworkCalls
          (tracedOnLoad (callbackRunningFramework setUp afterReturn afterThrow) md vm reserved s).2.2
        = [Event.frameworkBegin vm]
      ∧ moduleCalls
          (tracedOnLoad (callbackRunningFramework setUp afterReturn afterThrow) md vm reserved s).2.2
        = [Event.moduleCall vm]
      ∧ ∀ fw : JavaVM → Framework σ ε,
          (fw vm).invocations (onLoadCallback md vm) s = 1 →
            (tracedOnLoad fw md vm reserved s).2.2
              = [Event.frameworkBegin vm, Event.moduleCall vm, Event.frameworkEnd] := by
  have h1 := callbackRunningFramework_invocations setUp afterReturn afterThrow vm
    (onLoadCallback md vm) s
  have hlog := tracedOnLoad_log_of_one_invocation
    (callbackRunningFramework setUp afterReturn afterThrow) md vm reserved s h1
  refine ⟨hlog, ?_, ?_, ?_⟩
  · rw [hlog]
    rfl
  · rw [hlog]
    rfl
  · intro fw hfw
    exact tracedOnLoad_log_of_one_invocation fw md vm reserved s hfw

/-- Instances of C2: a framework that adds 5 to world component 0, runs the
callback and reports the JNI version, with the counting module; and the
guarded framework in a world where its set-up succeeded. -/
theorem JNI_OnLoad_call_sequence_witness :
    tracedOnLoad
        (callbackRunningFramework (fun _ w => (w.1 + 5, w.2))
          (fun _ w => (Except.ok JNI_VERSION_1_6, w))
          (fun _ e w => (Except.error e, w)))
        countingModule ⟨7⟩ ⟨0⟩ (0, 0)
        = (Except.ok 65542, (5, 1),
            [Event.frameworkBegin ⟨7⟩, Event.moduleCall ⟨7⟩, Event.frameworkEnd])
      ∧ (guardedFramework ⟨7⟩).invocations (onLoadCallback countingModule ⟨7⟩) (0, 0) = 1
      ∧ (tracedOnLoad guardedFramework countingModule ⟨7⟩ ⟨0⟩ (0, 0)).2.2
          = [Event.frameworkBegin ⟨7⟩, Event.moduleCall ⟨7⟩, Event.frameworkEnd] :=
  ⟨rfl, rfl,
    (JNI_OnLoad_call_sequence (fun _ w => (w.1 + 5, w.2))
      (fun _ w => (Except.ok JNI_VERSION_1_6, w)) (fun _ e w => (Except.error e, w))
      countingModule ⟨7⟩ ⟨0⟩ (0, 0)).2.2.2 guardedFramework rfl⟩

/-- C3: `JNI_OnLoad` fails with `e` exactly when the call of the framework
initializer fails with `e`, and returns a status exactly when that call returns
it; the hook's callback fails exactly when the module initializer fails, with
the same error; and whatever the outcome, the framework initializer is called
once (no retry). -/
theorem JNI_OnLoad_fails_iff_framework_fails {σ ε ρ : Type}
    (jniInit : JavaVM → Eff σ ε Unit → Eff σ ε jint)
    (splashscreenInit : JavaVM → Eff σ ε ρ)
    (fw : JavaVM → Framework σ ε)
    (vm : JavaVM) (reserved : VoidPtr) (s : σ) :
    (∀ e, (JNI_OnLoad jniInit splashscreenInit vm reserved s).1 = Except.error e
        ↔ (jniInit vm (onLoadCallback splashscreenInit vm) s).1 = Except.error e)
      ∧ (∀ c, (JNI_OnLoad jniInit splashscreenInit vm reserved s).1 = Except.ok c
        ↔ (jniInit vm (onLoadCallback splashscreenInit vm) s).1 = Except.ok c)
      ∧ (∀ e, (onLoadCallback splashscreenInit vm s).1 = Except.error e
        ↔ (splashscreenInit vm s).1 = Except.error e)
      ∧ (∀ e, (tracedOnLoad fw splashscreenInit vm reserved s).1 = Except.error e
        ↔ ((fw vm).run (onLoadCallback splashscreenInit vm) s).1 = Except.error e)
      ∧ frameworkCalls (tracedOnLoad fw splashscreenInit vm reserved s).2.2
        = [Event.frameworkBegin vm] := by
  refine ⟨fun e => Iff.rfl, fun c => Iff.rfl, ?_, ?_, ?_⟩
  · intro e
    unfold onLoadCallback
    rcases h : splashscreenInit vm s with ⟨r, s1⟩
    cases r <;> simp
  · intro e
    rw [tracedOnLoad_eq]
  · rw [tracedOnLoad_eq]
    exact frameworkCalls_log vm _

/-- C4: the context pointer is unused: with the same initializers and handle,
two context pointers give the same hook (same outcome and final world from
every world) and the same log of calls. -/
theorem JNI_OnLoad_ignores_context_pointer {σ ε ρ : Type}
    (jniInit : JavaVM → Eff σ ε Unit → Eff σ ε jint)
    (splashscreenInit : JavaVM → Eff σ ε ρ)
    (fw : JavaVM → Framework σ ε)
    (vm : JavaVM) (p q : VoidPtr) :
    JNI_OnLoad jniInit splashscreenInit vm p = JNI_OnLoad jniInit splashscreenInit vm q
      ∧ ∀ s, tracedOnLoad fw splashscreenInit vm p s
          = tracedOnLoad fw splashscreenInit vm q s :=
  ⟨rfl, fun _ => rfl⟩

/-- C5: the world after `JNI_OnLoad` is the world after running the framework
initializer with `vm` and the callback that runs the module initializer with
`vm`; hence a part of the world that neither initializer changes is not
changed by the hook. -/
theorem JNI_OnLoad_state_is_delegated {σ ε ρ τ : Type}
    (jniInit : JavaVM → Eff σ ε Unit → Eff σ ε jint)
    (splashscreenInit : JavaVM → Eff σ ε ρ)
    (vm : JavaVM) (reserved : VoidPtr) (s : σ) :
    (JNI_OnLoad jniInit splashscreenInit vm reserved s).2
        = (jniInit vm
            (fun s0 => (Except.map (fun _ => ()) (splashscreenInit vm s0).1,
              (splashscreenInit vm s0).2)) s).2
      ∧ ∀ part : σ → τ,
          (∀ v s0, part (splashscreenInit v s0).2 = part s0) →
          (∀ v cb, (∀ s0, part (cb s0).2 = part s0) →
            ∀ s0, part (jniInit v cb s0).2 = part s0) →
          part (JNI_OnLoad jniInit splashscreenInit vm reserved s).2 = part s := by
  have hcb : onLoadCallback splashscreenInit vm
      = fun s0 => (Except.map (fun _ => ()) (splashscreenInit vm s0).1,
          (splashscreenInit vm s0).2) := by
    funext s0
    unfold onLoadCallback
    rcases h : splashscreenInit vm s0 with ⟨r, s1⟩
    cases r <;> rfl
  refine ⟨?_, ?_⟩
  · unfold JNI_OnLoad
    rw [hcb]
  · intro part hmd hfw
    unfold JNI_OnLoad
    apply hfw
    intro s0
    rw [hcb]
    exact hmd vm s0

/-- Instance of C5: the first world component, which neither the guarded
framework nor the counting module changes, is unchanged by the hook. -/
theorem JNI_OnLoad_state_is_delegated_witness :
    (∀ v s0, Prod.fst (countingModule v s0).2 = Prod.fst s0)
      ∧ (∀ v cb, (∀ s0, Prod.fst (cb s0).2 = Prod.fst s0) →
          ∀ s0, Prod.fst ((guardedFramework v).run cb s0).2 = Prod.fst s0)
      ∧ Prod.fst (JNI_OnLoad (fun v => (guardedFramework v).run) countingModule ⟨7⟩ ⟨0⟩ (0, 0)).2
          = Prod.fst ((0, 0) : Nat × Nat) := by
  have hmd : ∀ (v : JavaVM) (s0 : Nat × Nat),
      Prod.fst (countingModule v s0).2 = Prod.fst s0 := fun _ _ => rfl
  have hfw : ∀ (v : JavaVM) (cb : Eff (Nat × Nat) String Unit),
      (∀ s0, Prod.fst (cb s0).2 = Prod.fst s0) →
        ∀ s0, Prod.fst ((guardedFramework v).run cb s0).2 = Prod.fst s0 := by
    intro v cb hcb s0
    have h0 := hcb s0
    unfold guardedFramework
    simp only [Framework.run]
    split_ifs
    · simp only [Framework.run]
      rcases h : cb s0 with ⟨r, s1⟩
      rw [h] at h0
      cases r <;> exact h0
    · rfl
  exact ⟨hmd, hfw,
    (JNI_OnLoad_state_is_delegated (fun v => (guardedFramework v).run) countingModule
      ⟨7⟩ ⟨0⟩ (0, 0)).2 Prod.fst hmd hfw⟩

/-- C6: when the framework initializer invokes its callback `n` times in one
run of the hook, the calls to the module initializer are exactly `n`, each with
the handle `vm` given to the hook, and the hook returns the outcome of the
framework initializer; with `n = 0` there is no call to the module initializer. -/
theorem module_calls_are_callback_invocations {σ ε ρ : Type}
    (fw : JavaVM → Framework σ ε) (md : JavaVM → Eff σ ε ρ)
    (vm : JavaVM) (reserved : VoidPtr) (s : σ) (n : Nat)
    (hn : (fw vm).invocations (onLoadCallback md vm) s = n) :
    moduleCalls (tracedOnLoad fw md vm reserved s).2.2
        = List.replicate n (Event.moduleCall vm)
      ∧ (moduleCalls (tracedOnLoad fw md vm reserved s).2.2).length = n
      ∧ (tracedOnLoad fw md vm reserved s).1
        = ((fw vm).run (onLoadCallback md vm) s).1
      ∧ (n = 0 →
          moduleCalls (tracedOnLoad fw md vm reserved s).2.2 = []
            ∧ (tracedOnLoad fw md vm reserved s).1
              = ((fw vm).run (fun w => (Except.ok (), w)) s).1
            ∧ (tracedOnLoad fw md vm reserved s).2.1
              = ((fw vm).run (fun w => (Except.ok (), w)) s).2) := by
  rw [tracedOnLoad_eq, moduleCalls_log, hn]
  refine ⟨rfl, List.length_replicate _ _, rfl, ?_⟩
  intro h0
  subst h0
  rw [Framework.run_of_invocations_eq_zero (onLoadCallback md vm)
    (fun w => (Except.ok (), w)) (fw vm) s hn]
  exact ⟨rfl, rfl, rfl⟩

/-- Instances of C6: a framework that invokes its callback twice, and one that
never invokes it, with a module initializer that would throw. -/
theorem module_calls_are_callback_invocations_witness :
    ((eagerFramework ⟨7⟩).invocations (onLoadCallback countingModule ⟨7⟩) (0, 0) = 2
      ∧ moduleCalls (tracedOnLoad eagerFramework countingModule ⟨7⟩ ⟨0⟩ (0, 0)).2.2
          = [Event.moduleCall ⟨7⟩, Event.moduleCall ⟨7⟩])
      ∧ ((silentFramework ⟨7⟩).invocations (onLoadCallback failingModule ⟨7⟩) (0, 0) = 0
        ∧ moduleCalls (tracedOnLoad silentFramework failingModule ⟨7⟩ ⟨0⟩ (0, 0)).2.2 = []
        ∧ (tracedOnLoad silentFramework failingModule ⟨7⟩ ⟨0⟩ (0, 0)).1
            = Except.ok JNI_VERSION_1_6) :=
  ⟨⟨rfl, (module_calls_are_callback_invocations eagerFramework countingModule
      ⟨7⟩ ⟨0⟩ (0, 0) 2 rfl).1⟩,
   ⟨rfl, ((module_calls_are_callback_invocations silentFramework failingModule
      ⟨7⟩ ⟨0⟩ (0, 0) 0 rfl).2.2.2 rfl).1,
    ((module_calls_are_callback_invocations silentFramework failingModule
      ⟨7⟩ ⟨0⟩ (0, 0) 0 rfl).2.2.2 rfl).2.1⟩⟩

end NitroSplashScreen
